import Mathlib

/-!
Shallow embedding of the items CRUD backend
(`src/packages/backend/src/app.js`) and the frontend delete handler
(`handleDelete` in the React `App` component).

Modelling conventions:
- The SQLite `items` table is a `List Item` together with the
  `AUTOINCREMENT` sequence counter (`Store.seq`); `lastInsertRowid`
  after an insert is `seq + 1`.
- Timestamps are epoch milliseconds (`Int`).  A stored `created_at`
  that is missing or fails `Date.parse` is modelled as `none`.
- JavaScript `number` arithmetic on elapsed time is modelled exactly
  over `ℚ`: `diffTime / (1000*60*60*24)` is rational division and
  `Math.floor` is `Int.floor`.
- `parseInt(id, 10)` is modelled faithfully: leading whitespace is
  skipped, an optional sign is read, then the longest digit prefix;
  no digits gives `NaN` (`none`).
- An HTTP response is a constructor of a response type; the
  constructor fixes the status code (see `DeleteResponse.status`).
-/

namespace ItemsApp

/-- Whitespace characters recognised by JavaScript `parseInt` skipping and
`String.prototype.trim` (the ASCII subset, which is all the app produces). -/
def jsWhitespace (c : Char) : Bool :=
  c = ' ' || c = '\t' || c = '\n' || c = '\r' || c = '\x0b' || c = '\x0c'

/-- Models the route handler's blank-id / blank-name test
`!x || x.trim() === ''`: a string is blank exactly when it is empty or all
of its characters are whitespace. -/
def isBlank (s : String) : Bool :=
  s.toList.all jsWhitespace

/-- Numeric value of a decimal digit character. -/
def digitVal (c : Char) : Nat := c.toNat - 48

/-- Models JavaScript `parseInt(s, 10)`: skip leading whitespace, read an
optional sign, then the longest prefix of decimal digits; `none` models
`NaN` (no digits found). -/
def jsParseInt (s : String) : Option Int :=
  let cs := s.toList.dropWhile jsWhitespace
  let signed : Int × List Char :=
    match cs with
    | '-' :: r => (-1, r)
    | '+' :: r => (1, r)
    | r => (1, r)
  let digits := signed.2.takeWhile (fun c => c.isDigit)
  if digits.isEmpty then none
  else some (signed.1 * ((digits.foldl (fun acc c => acc * 10 + digitVal c) 0 : Nat) : Int))

/-- A row of the `items` table: `id INTEGER PRIMARY KEY AUTOINCREMENT`,
`name TEXT NOT NULL`, `created_at TIMESTAMP`.  `created_at = none` models a
missing or unparseable timestamp string. -/
structure Item where
  id : Int
  name : String
  created_at : Option Int
deriving DecidableEq

/-- The in-memory database: the `items` rows plus the `AUTOINCREMENT`
sequence counter. -/
structure Store where
  items : List Item
  seq : Int
deriving DecidableEq

/-- Milliseconds per day, as written in the handler: `1000 * 60 * 60 * 24`. -/
def msPerDay : Int := 1000 * 60 * 60 * 24

/-- Responses of the `DELETE /api/items/:id` handler. -/
inductive DeleteResponse where
  | badRequest (error : String)
  | notFound (error : String)
  | forbidden (error : String) (itemAge : ℚ)
  | serverError (error : String)
  | ok (message : String) (id : String)
deriving DecidableEq

/-- HTTP status code carried by each `DeleteResponse` constructor. -/
def DeleteResponse.status : DeleteResponse → Nat
  | .badRequest _ => 400
  | .notFound _ => 404
  | .forbidden _ _ => 403
  | .serverError _ => 500
  | .ok _ _ => 200

/-- `true` exactly on the 200 success response. -/
def DeleteResponse.isOk : DeleteResponse → Bool
  | .ok _ _ => true
  | _ => false

/-- The `DELETE /api/items/:id` handler of `app.js`, as a function from the
store, the raw `:id` path parameter and the current time to a response and
the updated store:
1. blank id → 400;
2. `parseInt` gives `NaN` → 500;
3. `SELECT * FROM items WHERE id = ?` finds no row → 404;
4. stored `created_at` unparseable → 500;
5. `Math.floor(diffDays) < 5` → 403 carrying `diffDays` itself;
6. otherwise `DELETE FROM items WHERE id = ?`; zero affected rows → 404,
   else 200 echoing the raw path string `id`. -/
def deleteItem (s : Store) (id : String) (now : Int) : DeleteResponse × Store :=
  if isBlank id then
    (.badRequest "Item id is required", s)
  else
    match jsParseInt id with
    | none => (.serverError "Failed to delete item", s)
    | some itemId =>
      match s.items.find? (fun it => it.id == itemId) with
      | none => (.notFound "Item not found", s)
      | some item =>
        match item.created_at with
        | none => (.serverError "Failed to delete item", s)
        | some created =>
          let diffTime : Int := now - created
          let diffDays : ℚ := (diffTime : ℚ) / ((msPerDay : ℚ))
          if ⌊diffDays⌋ < 5 then
            (.forbidden "Cannot delete items newer than 5 days" diffDays, s)
          else
            let remaining := s.items.filter (fun it => !(it.id == itemId))
            let changes := s.items.length - remaining.length
            if changes == 0 then
              (.notFound "Item not found", { s with items := remaining })
            else
              (.ok "Item deleted successfully" id, { s with items := remaining })

/-- The elapsed age of an item in fractional days, as the handler computes
it: `(now - created) / (1000*60*60*24)` over the rationals. -/
def elapsedDays (now created : Int) : ℚ :=
  ((now - created : Int) : ℚ) / ((msPerDay : ℚ))

/-- A JSON value as the `name` field of a POST body can hold it. -/
inductive JsValue where
  | vUndefined
  | vNull
  | vBool (b : Bool)
  | vNum (q : ℚ)
  | vStr (s : String)
  | vArr
  | vObj
deriving DecidableEq

/-- JavaScript truthiness of a `JsValue` (`NaN` is not representable here;
the app never produces it for `name`). -/
def JsValue.truthy : JsValue → Bool
  | .vUndefined => false
  | .vNull => false
  | .vBool b => b
  | .vNum q => decide (q ≠ 0)
  | .vStr s => decide (s ≠ "")
  | .vArr => true
  | .vObj => true

/-- `typeof name === 'string'`. -/
def JsValue.isString : JsValue → Bool
  | .vStr _ => true
  | _ => false

/-- The underlying string of a string value; only consulted after the
`typeof` check has passed, so the default is never observable. -/
def JsValue.asString : JsValue → String
  | .vStr s => s
  | _ => ""

/-- Responses of the `POST /api/items` handler. -/
inductive CreateResponse where
  | badRequest (error : String)
  | created (item : Item)
  | serverError (error : String)
deriving DecidableEq

/-- The `POST /api/items` handler of `app.js`: reject with 400 when
`!name || typeof name !== 'string' || name.trim() === ''`; otherwise insert
the row (the new id is the next `AUTOINCREMENT` value, `created_at` is the
current time) and return it with 201. -/
def createItem (s : Store) (name : JsValue) (now : Int) : CreateResponse × Store :=
  if !name.truthy || !name.isString || isBlank name.asString then
    (.badRequest "Item name is required", s)
  else
    let newId := s.seq + 1
    let item : Item := { id := newId, name := name.asString, created_at := some now }
    (.created item, { items := s.items ++ [item], seq := newId })

/-- Comparison on stored timestamps used by `ORDER BY created_at`:
a missing timestamp sorts below every parsed one. -/
def tsLe : Option Int → Option Int → Bool
  | none, _ => true
  | some _, none => false
  | some x, some y => decide (x ≤ y)

/-- `ORDER BY created_at DESC` comparator: `a` may come before `b` when
`b.created_at ≤ a.created_at`. -/
def createdDesc (a b : Item) : Bool := tsLe b.created_at a.created_at

/-- The `GET /api/items` handler of `app.js`:
`SELECT * FROM items ORDER BY created_at DESC`. -/
def listItems (s : Store) : List Item := s.items.mergeSort createdDesc

/-- Decimal digits of the fraction `num / den` (with `num < den`), most
significant first, stopping when the remainder is zero or after `fuel`
digits. -/
def fracDigits : Nat → Nat → Nat → List Char
  | _, _, 0 => []
  | num, den, fuel + 1 =>
    if num = 0 then []
    else
      let num10 := num * 10
      Char.ofNat (48 + num10 / den) :: fracDigits (num10 % den) den fuel

/-- JavaScript number-to-string conversion as used by the template literal
interpolating `itemAge`, modelled for numbers with a finite decimal
expansion (the only ones the proofs evaluate): integer part, then the
fraction digits after a point, nothing when the fraction is zero. -/
def jsNumberToString (q : ℚ) : String :=
  let sign := if q < 0 then "-" else ""
  let n := q.num.natAbs
  let d := q.den
  if n % d = 0 then sign ++ toString (n / d)
  else sign ++ toString (n / d) ++ "." ++ String.mk (fracDigits (n % d) d 17)

/-- The frontend `handleDelete` reacting to the server's response: on a 2xx
response it filters the deleted id out of the local list and leaves the
error cleared; on a 403 whose `error` field is the age-restriction message
it sets the composed age message interpolating `errorData.itemAge`
unchanged; on any other failure it sets the generic deletion-failure
message.  Returns the new local list and the error message. -/
def clientHandleDelete (data : List Item) (resp : DeleteResponse) (targetId : Int) :
    List Item × Option String :=
  match resp with
  | .ok _ _ => (data.filter (fun it => !(it.id == targetId)), none)
  | .forbidden err itemAge =>
    if err == "Cannot delete items newer than 5 days" then
      (data, some ("Error deleting item: Cannot delete: item must be at least 5 days old (current age: "
        ++ jsNumberToString itemAge ++ " days)"))
    else
      (data, some "Error deleting item: Failed to delete item")
  | _ => (data, some "Error deleting item: Failed to delete item")

/-- Name validity in the spec's vocabulary: a `Create` name is accepted
exactly when it is a string value that is neither empty nor
whitespace-only.  Stated separately from `createItem` so that the
validation behaviour of the handler can be compared against it. -/
def specValidName : JsValue → Bool
  | .vStr str => !(isBlank str)
  | _ => false

/-- Fixture: an item old enough to delete at the times used below. -/
def itemA : Item := { id := 1, name := "Old Item", created_at := some 0 }

/-- Fixture: a one-item store holding `itemA`. -/
def storeA : Store := { items := [itemA], seq := 3 }

/-- Fixture: an item whose id 7 is reachable through the raw path id "007". -/
def itemB : Item := { id := 7, name := "Old Item", created_at := some 0 }

/-- Fixture: a one-item store holding `itemB`. -/
def storeB : Store := { items := [itemB], seq := 7 }

/-- Fixture: an item that is exactly three and a half days old at time
302400000. -/
def itemC : Item := { id := 1, name := "Recent Item", created_at := some 0 }

/-- Fixture: a one-item store holding `itemC`. -/
def storeC : Store := { items := [itemC], seq := 1 }

theorem jsParseInt_not_blank {s : String} {i : Int} (h : jsParseInt s = some i) :
    isBlank s = false := by
  cases hb : isBlank s with
  | false => rfl
  | true =>
    exfalso
    have hall : ∀ c ∈ s.toList, jsWhitespace c = true := by
      simpa [isBlank, List.all_eq_true] using hb
    have hnil : List.dropWhile jsWhitespace s.data = [] :=
      List.dropWhile_eq_nil_iff.mpr hall
    simp [jsParseInt, hnil] at h

theorem filter_ne_length_lt {l : List Item} {itemId : Int} {item : Item}
    (hf : l.find? (fun it => it.id == itemId) = some item) :
    (l.filter (fun it => !(it.id == itemId))).length < l.length := by
  refine List.length_filter_lt_length_iff_exists.mpr ⟨item, List.mem_of_find?_eq_some hf, ?_⟩
  have hpred := List.find?_some hf
  simp [hpred]

/-- Behaviour of the delete handler once the id has parsed, the row has been
found and its timestamp is parseable: the whole outcome is decided by the
age gate. -/
theorem deleteItem_found (s : Store) (idStr : String) (now : Int) (itemId : Int)
    (item : Item) (created : Int)
    (hp : jsParseInt idStr = some itemId)
    (hf : s.items.find? (fun it => it.id == itemId) = some item)
    (hc : item.created_at = some created) :
    deleteItem s idStr now =
      if ⌊elapsedDays now created⌋ < 5 then
        (.forbidden "Cannot delete items newer than 5 days" (elapsedDays now created), s)
      else
        (.ok "Item deleted successfully" idStr,
         { s with items := s.items.filter (fun it => !(it.id == itemId)) }) := by
  have hb := jsParseInt_not_blank hp
  have hlen := filter_ne_length_lt (l := s.items) hf
  unfold deleteItem elapsedDays
  rw [hb]
  simp only [Bool.false_eq_true, if_false, hp, hf, hc]
  by_cases hlt : ⌊((now - created : Int) : ℚ) / ((msPerDay : ℚ))⌋ < 5
  · rw [if_pos hlt, if_pos hlt]
  · rw [if_neg hlt, if_neg hlt]
    have hne : (s.items.length - (s.items.filter (fun it => !(it.id == itemId))).length) ≠ 0 := by
      omega
    simp [hne]

/-- Every run of the delete handler either leaves the store unchanged and
fails, or succeeds having removed exactly the rows with the parsed id. -/
theorem deleteItem_spec (s : Store) (idStr : String) (now : Int) :
    ((deleteItem s idStr now).2 = s ∧ (deleteItem s idStr now).1.isOk = false) ∨
    (∃ itemId item created,
      jsParseInt idStr = some itemId ∧
      s.items.find? (fun it => it.id == itemId) = some item ∧
      item.created_at = some created ∧
      5 ≤ ⌊elapsedDays now created⌋ ∧
      deleteItem s idStr now =
        (.ok "Item deleted successfully" idStr,
         { s with items := s.items.filter (fun it => !(it.id == itemId)) })) := by
  by_cases hb : isBlank idStr = true
  · left
    simp [deleteItem, hb, DeleteResponse.isOk]
  · rw [Bool.not_eq_true] at hb
    cases hp : jsParseInt idStr with
    | none =>
      left
      simp [deleteItem, hb, hp, DeleteResponse.isOk]
    | some itemId =>
      cases hf : s.items.find? (fun it => it.id == itemId) with
      | none =>
        left
        simp [deleteItem, hb, hp, hf, DeleteResponse.isOk]
      | some item =>
        cases hc : item.created_at with
        | none =>
          left
          simp [deleteItem, hb, hp, hf, hc, DeleteResponse.isOk]
        | some created =>
          rw [deleteItem_found s idStr now itemId item created hp hf hc]
          by_cases hlt : ⌊elapsedDays now created⌋ < 5
          · left
            simp [hlt, DeleteResponse.isOk]
          · right
            refine ⟨itemId, item, created, rfl, hf, hc, by omega, ?_⟩
            simp [hlt]

theorem tsLe_trans (x y z : Option Int) (hxy : tsLe x y = true) (hyz : tsLe y z = true) :
    tsLe x z = true := by
  cases x <;> cases y <;> cases z <;> simp [tsLe] at *
  all_goals omega

theorem tsLe_total (x y : Option Int) : (tsLe x y || tsLe y x) = true := by
  cases x <;> cases y <;> simp [tsLe]
  all_goals omega

/-- C1: for a stored item (the id parses, the row is found, its timestamp is
parseable) the delete succeeds — returning the success response and removing
exactly that row — if and only if `floor((now - created_at) / 1 day) ≥ 5`;
below the bound the response is the 403 age-restriction condition and the
store is unchanged. -/
theorem delete_succeeds_iff_five_days (s : Store) (idStr : String) (now itemId : Int)
    (item : Item) (created : Int)
    (hp : jsParseInt idStr = some itemId)
    (hf : s.items.find? (fun it => it.id == itemId) = some item)
    (hc : item.created_at = some created) :
    ((deleteItem s idStr now).1.isOk = true ↔ 5 ≤ ⌊elapsedDays now created⌋) ∧
    (5 ≤ ⌊elapsedDays now created⌋ →
      (deleteItem s idStr now).1 = .ok "Item deleted successfully" idStr ∧
      (deleteItem s idStr now).2.items = s.items.filter (fun it => !(it.id == itemId))) ∧
    (⌊elapsedDays now created⌋ < 5 →
      (deleteItem s idStr now).1.status = 403 ∧ (deleteItem s idStr now).2 = s) := by
  rw [deleteItem_found s idStr now itemId item created hp hf hc]
  by_cases hlt : ⌊elapsedDays now created⌋ < 5
  · simp [hlt, DeleteResponse.isOk, DeleteResponse.status]
    try omega
  · simp [hlt, DeleteResponse.isOk, DeleteResponse.status]
    try omega

/-- C1 witness: an item exactly five days old is deleted successfully, an
item four days and twenty-three hours old is rejected with 403. -/
theorem delete_succeeds_iff_five_days_witness :
    ((deleteItem storeA "1" 432000000).1.isOk = true ↔ 5 ≤ ⌊elapsedDays 432000000 0⌋) ∧
    (deleteItem storeA "1" 430200000).1.status = 403 := by
  have h1 := delete_succeeds_iff_five_days storeA "1" 432000000 1 itemA 0
    (by decide) (by decide) rfl
  have h2 := delete_succeeds_iff_five_days storeA "1" 430200000 1 itemA 0
    (by decide) (by decide) rfl
  exact ⟨h1.1, (h2.2.2 (by norm_num [elapsedDays, msPerDay])).1⟩

/-- C2 (amended): when the delete is rejected by the age gate, the client
sets an error message that states the minimum age requirement (5 days) and
interpolates the `itemAge` value of the response exactly as received —
possibly a fractional number of days — and leaves its local list
unchanged. -/
theorem client_age_message_exact (data : List Item) (s : Store) (idStr : String)
    (now itemId : Int) (item : Item) (created : Int) (targetId : Int)
    (hp : jsParseInt idStr = some itemId)
    (hf : s.items.find? (fun it => it.id == itemId) = some item)
    (hc : item.created_at = some created)
    (hage : ⌊elapsedDays now created⌋ < 5) :
    (clientHandleDelete data (deleteItem s idStr now).1 targetId).2 =
      some ("Error deleting item: Cannot delete: item must be at least 5 days old (current age: "
        ++ jsNumberToString (elapsedDays now created) ++ " days)") ∧
    (clientHandleDelete data (deleteItem s idStr now).1 targetId).1 = data := by
  rw [deleteItem_found s idStr now itemId item created hp hf hc, if_pos hage]
  simp [clientHandleDelete]

/-- C2 witness: the amended message at a concrete three-and-a-half-day-old
item. -/
theorem client_age_message_exact_witness :
    ⌊elapsedDays 302400000 0⌋ < 5 ∧
    (clientHandleDelete [itemC] (deleteItem storeC "1" 302400000).1 1).2 =
      some ("Error deleting item: Cannot delete: item must be at least 5 days old (current age: "
        ++ jsNumberToString (elapsedDays 302400000 0) ++ " days)") := by
  have hage : ⌊elapsedDays 302400000 0⌋ < 5 := by norm_num [elapsedDays, msPerDay]
  exact ⟨hage, (client_age_message_exact [itemC] storeC "1" 302400000 1 itemC 0 1
    (by decide) (by decide) rfl hage).1⟩

/-- C2 counterexample: for an item exactly three and a half days old the
client error message embeds the fractional age `3.5`, not the age rounded
or formatted as a whole number of days. -/
theorem client_age_message_counterexample :
    (clientHandleDelete [itemC] (deleteItem storeC "1" 302400000).1 1).2 =
      some "Error deleting item: Cannot delete: item must be at least 5 days old (current age: 3.5 days)" ∧
    (clientHandleDelete [itemC] (deleteItem storeC "1" 302400000).1 1).2 ≠
      some "Error deleting item: Cannot delete: item must be at least 5 days old (current age: 3 days)" ∧
    (clientHandleDelete [itemC] (deleteItem storeC "1" 302400000).1 1).2 ≠
      some "Error deleting item: Cannot delete: item must be at least 5 days old (current age: 4 days)" := by
  have hres : (deleteItem storeC "1" 302400000).1 =
      .forbidden "Cannot delete items newer than 5 days" (7/2) := by
    rw [deleteItem_found storeC "1" 302400000 1 itemC 0 (by decide) (by decide) rfl]
    rw [if_pos (by norm_num [elapsedDays, msPerDay])]
    simp only [DeleteResponse.forbidden.injEq, true_and]
    norm_num [elapsedDays, msPerDay]
  have h35 : jsNumberToString (7/2) = "3.5" := by
    norm_num [jsNumberToString, fracDigits]
    rfl
  rw [hres]
  simp [clientHandleDelete, h35]

/-- C3: a non-blank id on which `parseInt` yields `NaN` produces the 500
internal-error response `Failed to delete item`, and no item is removed. -/
theorem delete_malformed_id_internal_error (s : Store) (idStr : String) (now : Int)
    (hnb : isBlank idStr = false)
    (hp : jsParseInt idStr = none) :
    (deleteItem s idStr now).1 = .serverError "Failed to delete item" ∧
    (deleteItem s idStr now).1.status = 500 ∧
    (deleteItem s idStr now).2 = s := by
  simp [deleteItem, hnb, hp, DeleteResponse.status]

/-- C3 witness: the malformed id "abc" at a concrete store. -/
theorem delete_malformed_id_internal_error_witness :
    isBlank "abc" = false ∧
    (deleteItem storeA "abc" 0).1 = .serverError "Failed to delete item" := by
  exact ⟨by decide, (delete_malformed_id_internal_error storeA "abc" 0
    (by decide) (by decide)).1⟩

/-- C4: the item collection is mutated only when the request succeeds — on
every failing branch the store comes back unchanged — and on success it is
mutated exactly once, by removing the rows carrying the parsed id. -/
theorem delete_mutates_only_on_success (s : Store) (idStr : String) (now : Int) :
    ((deleteItem s idStr now).1.isOk = false → (deleteItem s idStr now).2 = s) ∧
    ((deleteItem s idStr now).1.isOk = true →
      ∃ itemId, jsParseInt idStr = some itemId ∧
        (deleteItem s idStr now).2 =
          { s with items := s.items.filter (fun it => !(it.id == itemId)) } ∧
        (deleteItem s idStr now).2.items.length < s.items.length) := by
  rcases deleteItem_spec s idStr now with ⟨h2, h1⟩ | ⟨itemId, item, created, hp, hf, hc, hge, heq⟩
  · refine ⟨fun _ => h2, fun hok => ?_⟩
    rw [h1] at hok
    cases hok
  · constructor
    · intro hfail
      rw [heq] at hfail
      simp [DeleteResponse.isOk] at hfail
    · intro _
      refine ⟨itemId, hp, by rw [heq], ?_⟩
      rw [heq]
      exact filter_ne_length_lt hf

/-- C4 witness: a failing branch (malformed id) leaves the concrete store
unchanged. -/
theorem delete_mutates_only_on_success_witness :
    (deleteItem storeA "abc" 0).1.isOk = false ∧
    (deleteItem storeA "abc" 0).2 = storeA :=
  ⟨by decide, (delete_mutates_only_on_success storeA "abc" 0).1 (by decide)⟩

/-- C5: an id that parses but matches no stored row yields the 404
not-found condition — never the age-restriction condition — for every
current time, and leaves the store unchanged. -/
theorem delete_nonexistent_not_found (s : Store) (idStr : String) (now itemId : Int)
    (hp : jsParseInt idStr = some itemId)
    (hf : s.items.find? (fun it => it.id == itemId) = none) :
    (deleteItem s idStr now).1 = .notFound "Item not found" ∧
    (deleteItem s idStr now).1.status = 404 ∧
    (deleteItem s idStr now).2 = s := by
  have hnb := jsParseInt_not_blank hp
  simp [deleteItem, hnb, hp, hf, DeleteResponse.status]

/-- C5 witness: id "2" matches nothing in the one-item store. -/
theorem delete_nonexistent_not_found_witness :
    jsParseInt "2" = some 2 ∧
    (deleteItem storeA "2" 999999999999).1 = .notFound "Item not found" :=
  ⟨by decide, (delete_nonexistent_not_found storeA "2" 999999999999 2
    (by decide) (by decide)).1⟩

/-- C6: a create request whose name is not a non-blank string — the empty
string, a whitespace-only string, or any non-string value — yields the 400
validation error and leaves the store unchanged; any other request extends
the store by exactly the new item, which carries the next sequence id and
the current timestamp. -/
theorem create_validates_name (s : Store) (name : JsValue) (now : Int) :
    (specValidName name = false →
      (createItem s name now).1 = .badRequest "Item name is required" ∧
      (createItem s name now).2 = s) ∧
    (specValidName name = true →
      ∃ str, name = .vStr str ∧
        (createItem s name now).1 =
          .created { id := s.seq + 1, name := str, created_at := some now } ∧
        (createItem s name now).2 =
          { items := s.items ++ [{ id := s.seq + 1, name := str, created_at := some now }],
            seq := s.seq + 1 }) := by
  constructor
  · intro hbad
    cases name with
    | vStr str =>
      have hb : isBlank str = true := by simpa [specValidName] using hbad
      simp [createItem, JsValue.truthy, JsValue.isString, JsValue.asString, hb]
    | vUndefined => simp [createItem, JsValue.truthy, JsValue.isString, JsValue.asString]
    | vNull => simp [createItem, JsValue.truthy, JsValue.isString, JsValue.asString]
    | vBool b => simp [createItem, JsValue.truthy, JsValue.isString, JsValue.asString]
    | vNum q => simp [createItem, JsValue.truthy, JsValue.isString, JsValue.asString]
    | vArr => simp [createItem, JsValue.truthy, JsValue.isString, JsValue.asString]
    | vObj => simp [createItem, JsValue.truthy, JsValue.isString, JsValue.asString]
  · intro hgood
    cases name with
    | vStr str =>
      have hb : isBlank str = false := by simpa [specValidName] using hgood
      have hne : str ≠ "" := by
        intro h
        rw [h] at hb
        exact absurd hb (by decide)
      exact ⟨str, rfl,
        by simp [createItem, JsValue.truthy, JsValue.isString, JsValue.asString, hb, hne],
        by simp [createItem, JsValue.truthy, JsValue.isString, JsValue.asString, hb, hne]⟩
    | vUndefined => simp [specValidName] at hgood
    | vNull => simp [specValidName] at hgood
    | vBool b => simp [specValidName] at hgood
    | vNum q => simp [specValidName] at hgood
    | vArr => simp [specValidName] at hgood
    | vObj => simp [specValidName] at hgood

/-- C6 witness: a whitespace-only name is rejected, a plain name creates
exactly the new row. -/
theorem create_validates_name_witness :
    specValidName (.vStr "   ") = false ∧
    (createItem storeA (.vStr "   ") 99).1 = .badRequest "Item name is required" ∧
    specValidName (.vStr "X") = true ∧
    (createItem storeA (.vStr "X") 99).2 =
      { items := storeA.items ++ [{ id := storeA.seq + 1, name := "X", created_at := some 99 }],
        seq := storeA.seq + 1 } := by
  refine ⟨by decide, ((create_validates_name storeA (.vStr "   ") 99).1 (by decide)).1,
    by decide, ?_⟩
  rcases (create_validates_name storeA (.vStr "X") 99).2 (by decide) with ⟨str, hstr, h1, h2⟩
  injection hstr with h
  subst h
  exact h2

/-- C7: a delete rejected by the age gate answers 403 with an `itemAge`
field holding the exact fractional elapsed-days value
`(now - created_at) / 1 day`, not a rounded or truncated value. -/
theorem delete_forbidden_carries_exact_age (s : Store) (idStr : String)
    (now itemId : Int) (item : Item) (created : Int)
    (hp : jsParseInt idStr = some itemId)
    (hf : s.items.find? (fun it => it.id == itemId) = some item)
    (hc : item.created_at = some created)
    (hage : ⌊elapsedDays now created⌋ < 5) :
    (deleteItem s idStr now).1 =
      .forbidden "Cannot delete items newer than 5 days" (elapsedDays now created) ∧
    (deleteItem s idStr now).1.status = 403 := by
  rw [deleteItem_found s idStr now itemId item created hp hf hc, if_pos hage]
  exact ⟨rfl, rfl⟩

/-- C7 witness: at three and a half days the 403 response carries exactly
7/2 elapsed days. -/
theorem delete_forbidden_carries_exact_age_witness :
    ⌊elapsedDays 302400000 0⌋ < 5 ∧
    (deleteItem storeC "1" 302400000).1 =
      .forbidden "Cannot delete items newer than 5 days" (elapsedDays 302400000 0) := by
  have hage : ⌊elapsedDays 302400000 0⌋ < 5 := by norm_num [elapsedDays, msPerDay]
  exact ⟨hage, (delete_forbidden_carries_exact_age storeC "1" 302400000 1 itemC 0
    (by decide) (by decide) rfl hage).1⟩

/-- C8: the list operation returns all stored items — a permutation of the
store, no filtering — ordered by `created_at` descending. -/
theorem list_returns_all_sorted_desc (s : Store) :
    (listItems s).Perm s.items ∧
    (listItems s).Pairwise (fun a b => tsLe b.created_at a.created_at = true) := by
  refine ⟨List.mergeSort_perm s.items createdDesc, ?_⟩
  exact @List.sorted_mergeSort Item createdDesc
    (fun a b c hab hbc => tsLe_trans _ _ _ hbc hab)
    (fun a b => tsLe_total b.created_at a.created_at)
    s.items

/-- C9: after a successful delete, repeating the same delete — at any later
request time — yields the 404 not-found condition. -/
theorem delete_twice_not_found (s : Store) (idStr : String) (now now2 : Int)
    (hok : (deleteItem s idStr now).1.isOk = true) :
    (deleteItem (deleteItem s idStr now).2 idStr now2).1 = .notFound "Item not found" := by
  rcases deleteItem_spec s idStr now with ⟨-, h1⟩ | ⟨itemId, item, created, hp, hf, hc, hge, heq⟩
  · rw [h1] at hok
    cases hok
  · have hnb := jsParseInt_not_blank hp
    rw [heq]
    have hfind : (s.items.filter (fun it => !(it.id == itemId))).find?
        (fun it => it.id == itemId) = none := by
      refine List.find?_eq_none.mpr ?_
      intro x hx
      have hmem := (List.mem_filter.mp hx).2
      simpa using hmem
    simp [deleteItem, hnb, hp, hfind]

/-- C9 witness: deleting the old item twice succeeds once, then 404. -/
theorem delete_twice_not_found_witness :
    (deleteItem storeA "1" 432000000).1.isOk = true ∧
    (deleteItem (deleteItem storeA "1" 432000000).2 "1" 432000000).1 =
      .notFound "Item not found" := by
  have hok : (deleteItem storeA "1" 432000000).1.isOk = true := by
    rw [deleteItem_found storeA "1" 432000000 1 itemA 0 (by decide) (by decide) rfl]
    rw [if_neg (by norm_num [elapsedDays, msPerDay])]
    rfl
  exact ⟨hok, delete_twice_not_found storeA "1" 432000000 432000000 hok⟩

/-- C10: a successful delete echoes in the `id` field of the 200 body the
raw string taken from the request path, not the parsed integer id of the
deleted row. -/
theorem delete_ok_echoes_raw_id (s : Store) (idStr : String) (now : Int)
    (msg rid : String)
    (h : (deleteItem s idStr now).1 = .ok msg rid) :
    rid = idStr := by
  rcases deleteItem_spec s idStr now with ⟨-, h1⟩ | ⟨itemId, item, created, hp, hf, hc, hge, heq⟩
  · rw [h] at h1
    cases h1
  · rw [heq] at h
    simp only [DeleteResponse.ok.injEq] at h
    exact h.2.symm

/-- C10 witness: deleting item 7 through the raw path id "007" echoes
"007". -/
theorem delete_ok_echoes_raw_id_witness :
    (deleteItem storeB "007" 432000000).1 = .ok "Item deleted successfully" "007" ∧
    ("007" : String) = "007" := by
  have h : (deleteItem storeB "007" 432000000).1 = .ok "Item deleted successfully" "007" := by
    rw [deleteItem_found storeB "007" 432000000 7 itemB 0 (by decide) (by decide) rfl]
    rw [if_neg (by norm_num [elapsedDays, msPerDay])]
  exact ⟨h, delete_ok_echoes_raw_id storeB "007" 432000000 "Item deleted successfully" "007" h⟩

end ItemsApp
